import Mathlib

/-!
Verification of the Figma MCP plugin core (src/figma-plugin/code.ts).

Shallow embedding conventions:
* JavaScript numbers are modelled by `JSNum`: either NaN or an exact
  rational.  Ideal-precision rationals stand in for IEEE doubles; the
  claims state tolerances (1/255) that absorb this idealisation.
* Strings are Lean `String`s, processed as `List Char`.  `toLowerCase`
  is modelled on the ASCII range, which covers every key of the
  parser's named-colour table.
* Host node ids are opaque nonempty strings issued by Figma (always of
  the shape "n:m"), modelled as `String`.
* Fallible host calls return `Except`/`Option`.
-/

namespace FigmaPlugin

/-- A JavaScript number: NaN or an exact rational value. -/
inductive JSNum where
  | nan : JSNum
  | num : ℚ → JSNum
deriving DecidableEq, Repr

namespace JSNum

/-- NaN-propagating addition. -/
def add : JSNum → JSNum → JSNum
  | num a, num b => num (a + b)
  | _, _ => nan

/-- NaN-propagating subtraction. -/
def sub : JSNum → JSNum → JSNum
  | num a, num b => num (a - b)
  | _, _ => nan

/-- NaN-propagating multiplication. -/
def mul : JSNum → JSNum → JSNum
  | num a, num b => num (a * b)
  | _, _ => nan

/-- Division by a nonzero rational constant (the source only ever divides by
the literals 255, 360 and 100). -/
def divC : JSNum → ℚ → JSNum
  | num a, d => num (a / d)
  | nan, _ => nan

/-- The JavaScript comparison x < y: false whenever either side is NaN. -/
def lt : JSNum → JSNum → Bool
  | num a, num b => a < b
  | _, _ => false

/-- The JavaScript strict equality x === y on numbers: false for NaN. -/
def strictEq : JSNum → JSNum → Bool
  | num a, num b => a = b
  | _, _ => false

/-- JavaScript truthiness of a number: 0 and NaN are falsy. -/
def truthy : JSNum → Bool
  | num a => a ≠ 0
  | nan => false

end JSNum

open JSNum (nan num)

/-- Channel check used by the claims: the value is a real number inside the
closed unit interval. -/
def inUnitB : JSNum → Bool
  | num q => 0 ≤ q ∧ q ≤ 1
  | nan => false

/-! ### Character classes and the pieces of the JavaScript string library
used by `enhancedParseColor` (code.ts:427-584). -/

/-- Whitespace recognised by `String.prototype.trim` and by `parseInt` /
`parseFloat` (ASCII portion). -/
def isJsWs (c : Char) : Bool :=
  c.toNat = 32 ∨ c.toNat = 9 ∨ c.toNat = 10 ∨ c.toNat = 13 ∨
  c.toNat = 11 ∨ c.toNat = 12

/-- Value of a hexadecimal digit, if the character is one. -/
def hexVal (c : Char) : Option ℕ :=
  if 48 ≤ c.toNat ∧ c.toNat ≤ 57 then some (c.toNat - 48)
  else if 97 ≤ c.toNat ∧ c.toNat ≤ 102 then some (c.toNat - 87)
  else if 65 ≤ c.toNat ∧ c.toNat ≤ 70 then some (c.toNat - 55)
  else none

/-- Value of a decimal digit, if the character is one. -/
def decVal (c : Char) : Option ℕ :=
  if 48 ≤ c.toNat ∧ c.toNat ≤ 57 then some (c.toNat - 48) else none

/-- ASCII model of `String.prototype.toLowerCase`. -/
def jsToLower (c : Char) : Char :=
  if 65 ≤ c.toNat ∧ c.toNat ≤ 90 then Char.ofNat (c.toNat + 32) else c

/-- ASCII model of `toLowerCase` on a whole string. -/
def listToLower (l : List Char) : List Char := l.map jsToLower

/-- Model of `String.prototype.trim`: drop leading and trailing whitespace. -/
def jsTrim (l : List Char) : List Char :=
  ((l.dropWhile isJsWs).reverse.dropWhile isJsWs).reverse

/-- Does the first list start with the second one?  (Model of
`String.prototype.startsWith`.) -/
def startsWithL : List Char → List Char → Bool
  | _, [] => true
  | [], _ :: _ => false
  | c :: cs, p :: ps => c = p && startsWithL cs ps

/-- Longest run of digit values at the head of the list. -/
def leadDigits (dv : Char → Option ℕ) : List Char → List ℕ
  | [] => []
  | c :: cs =>
    match dv c with
    | some v => v :: leadDigits dv cs
    | none => []

/-- Combine digit values most-significant first. -/
def digitsToNat (base : ℕ) (ds : List ℕ) : ℕ :=
  ds.foldl (fun acc d => acc * base + d) 0

/-- Model of `parseInt(s, base)`: skip leading whitespace, an optional sign,
for base 16 an optional 0x/0X marker, then read leading digits; NaN when no
digit is found.  (The exponent-free inputs fed by the colour parser never
reach the remaining corners of the ECMAScript grammar.) -/
def jsParseIntWith (dv : Char → Option ℕ) (base : ℕ) (hexMarker : Bool)
    (s : List Char) : JSNum :=
  let s1 := s.dropWhile isJsWs
  let neg : Bool := match s1 with
    | c :: _ => c = '-'
    | [] => false
  let s2 := match s1 with
    | c :: rest => if c = '-' ∨ c = '+' then rest else s1
    | [] => s1
  let s3 := if hexMarker then
      match s2 with
      | c0 :: c1 :: rest => if c0 = '0' ∧ (c1 = 'x' ∨ c1 = 'X') then rest else s2
      | _ => s2
    else s2
  let ds := leadDigits dv s3
  if ds.isEmpty then nan
  else num ((if neg then (-1 : ℚ) else 1) * (digitsToNat base ds : ℚ))

/-- Model of `parseInt(s, 16)` as used on hex-colour substrings. -/
def jsParseIntHex (s : List Char) : JSNum := jsParseIntWith hexVal 16 true s

/-- Model of `parseInt(s)` on the digit-and-dot runs produced by the
rgb/hsl component regex (no 0x marker can occur there). -/
def jsParseIntDec (s : List Char) : JSNum := jsParseIntWith decVal 10 false s

/-- Fractional value of the digits after a decimal point. -/
def fracVal (ds : List ℕ) : ℚ := (digitsToNat 10 ds : ℚ) / (10 ^ ds.length)

/-- Model of `parseFloat(s)` on the digit-and-dot runs produced by the
component regex: optional sign, integer digits, optional point and
fraction digits; NaN when neither part has a digit. -/
def jsParseFloat (s : List Char) : JSNum :=
  let s1 := s.dropWhile isJsWs
  let neg : Bool := match s1 with
    | c :: _ => c = '-'
    | [] => false
  let s2 := match s1 with
    | c :: rest => if c = '-' ∨ c = '+' then rest else s1
    | [] => s1
  let ip := leadDigits decVal s2
  let rest := s2.drop ip.length
  let fp := match rest with
    | '.' :: r => leadDigits decVal r
    | _ => []
  if ip.isEmpty ∧ fp.isEmpty then nan
  else num ((if neg then (-1 : ℚ) else 1) * ((digitsToNat 10 ip : ℚ) + fracVal fp))

/-- Is the character matched by the component regex `[\d.]`? -/
def isDigitDot (c : Char) : Bool := (decVal c).isSome || c = '.'

/-- Maximal runs of characters satisfying `p`, an accumulator-based model of
`s.match(/[\d.]+/g)` (which returns every maximal run, in order). -/
def runsOfAux (p : Char → Bool) : List Char → List Char → List (List Char)
  | [], acc => if acc.isEmpty then [] else [acc.reverse]
  | c :: cs, acc =>
    if p c then runsOfAux p cs (c :: acc)
    else if acc.isEmpty then runsOfAux p cs []
    else acc.reverse :: runsOfAux p cs []

/-- Maximal runs of characters satisfying `p`. -/
def runsOf (p : Char → Bool) (l : List Char) : List (List Char) :=
  runsOfAux p l []

/-! ### The normalised colour record and `enhancedParseColor`
(code.ts:427-584). -/

/-- The parser's output record: four JavaScript numbers. -/
structure Color where
  r : JSNum
  g : JSNum
  b : JSNum
  a : JSNum
deriving DecidableEq, Repr

/-- Opaque black, the parser's default (code.ts:430, 583). -/
def black : Color := ⟨num 0, num 0, num 0, num 1⟩

/-- Duplicate every character: the short-hex expansion
`hex.split('').map(char => char + char).join('')` (code.ts:464). -/
def dupChars (l : List Char) : List Char := (l.map (fun c => [c, c])).flatten

/-- Hex branch of the parser (code.ts:458-495).  The argument is the whole
trimmed string, '#' included.  `none` models the caught throw on an
unsupported length, after which execution falls through. -/
def hexBranch (t : List Char) : Option Color :=
  let hex0 := t.drop 1
  let hex := if hex0.length = 3 then dupChars hex0 else hex0
  let h2 (l : List Char) : JSNum := (jsParseIntHex l).divC 255
  if hex.length = 8 then
    some ⟨h2 (hex.take 2), h2 ((hex.drop 2).take 2), h2 ((hex.drop 4).take 2),
          h2 ((hex.drop 6).take 2)⟩
  else if hex.length = 6 then
    some ⟨h2 (hex.take 2), h2 ((hex.drop 2).take 2), h2 ((hex.drop 4).take 2),
          num 1⟩
  else if hex.length = 4 then
    some ⟨h2 (hex.take 1 ++ hex.take 1),
          h2 ((hex.drop 1).take 1 ++ (hex.drop 1).take 1),
          h2 ((hex.drop 2).take 1 ++ (hex.drop 2).take 1),
          h2 ((hex.drop 3).take 1 ++ (hex.drop 3).take 1)⟩
  else none

/-- rgb/rgba branch of the parser (code.ts:498-511): positional numeric
components, first three divided by 255, the fourth used as-is. -/
def rgbBranch (t : List Char) : Option Color :=
  let vs := runsOf isDigitDot t
  if 3 ≤ vs.length then
    some ⟨(jsParseIntDec (vs.getD 0 [])).divC 255,
          (jsParseIntDec (vs.getD 1 [])).divC 255,
          (jsParseIntDec (vs.getD 2 [])).divC 255,
          if 4 ≤ vs.length then jsParseFloat (vs.getD 3 []) else num 1⟩
  else none

/-- The helper `hue2rgb` (code.ts:530-537), with the source's sequential
adjustments of t and its NaN-insensitive comparisons. -/
def hue2rgb (p q t0 : JSNum) : JSNum :=
  let t1 := if t0.lt (num 0) then t0.add (num 1) else t0
  let t2 := if (num 1).lt t1 then t1.sub (num 1) else t1
  if t2.lt (num (1/6)) then p.add (((q.sub p).mul (num 6)).mul t2)
  else if t2.lt (num (1/2)) then q
  else if t2.lt (num (2/3)) then
    p.add (((q.sub p).mul ((num (2/3)).sub t2)).mul (num 6))
  else p

/-- hsl/hsla branch of the parser (code.ts:514-552). -/
def hslBranch (t : List Char) : Option Color :=
  let vs := runsOf isDigitDot t
  if 3 ≤ vs.length then
    let h := (jsParseIntDec (vs.getD 0 [])).divC 360
    let s := (jsParseIntDec (vs.getD 1 [])).divC 100
    let l := (jsParseIntDec (vs.getD 2 [])).divC 100
    let a := if 4 ≤ vs.length then jsParseFloat (vs.getD 3 []) else num 1
    if s.strictEq (num 0) then some ⟨l, l, l, a⟩
    else
      let q := if l.lt (num (1/2)) then l.mul ((num 1).add s)
               else (l.add s).sub (l.mul s)
      let p := ((num 2).mul l).sub q
      some ⟨hue2rgb p q (h.add (num (1/3))), hue2rgb p q h,
            hue2rgb p q (h.sub (num (1/3))), a⟩
  else none

/-- The named-colour table `colorMap` (code.ts:555-575), looked up after
lowercasing; the argument is the already lowercased string. -/
def namedLookup (l : List Char) : Option Color :=
  if l = "transparent".toList then some ⟨num 0, num 0, num 0, num 0⟩
  else if l = "red".toList then some ⟨num 1, num 0, num 0, num 1⟩
  else if l = "green".toList then some ⟨num 0, num (8/10), num 0, num 1⟩
  else if l = "blue".toList then some ⟨num 0, num 0, num 1, num 1⟩
  else if l = "black".toList then some ⟨num 0, num 0, num 0, num 1⟩
  else if l = "white".toList then some ⟨num 1, num 1, num 1, num 1⟩
  else if l = "gray".toList then some ⟨num (1/2), num (1/2), num (1/2), num 1⟩
  else if l = "grey".toList then some ⟨num (1/2), num (1/2), num (1/2), num 1⟩
  else if l = "yellow".toList then some ⟨num 1, num 1, num 0, num 1⟩
  else if l = "purple".toList then some ⟨num (1/2), num 0, num (1/2), num 1⟩
  else if l = "orange".toList then some ⟨num 1, num (65/100), num 0, num 1⟩
  else if l = "pink".toList then some ⟨num 1, num (75/100), num (8/10), num 1⟩
  else if l = "primary".toList then some ⟨num (12/100), num (47/100), num (71/100), num 1⟩
  else if l = "secondary".toList then some ⟨num (91/100), num (3/10), num (24/100), num 1⟩
  else if l = "success".toList then some ⟨num (3/10), num (69/100), num (31/100), num 1⟩
  else if l = "warning".toList then some ⟨num 1, num (76/100), num (3/100), num 1⟩
  else if l = "error".toList then some ⟨num (96/100), num (26/100), num (21/100), num 1⟩
  else if l = "info".toList then some ⟨num (13/100), num (59/100), num (95/100), num 1⟩
  else none

/-- The string-format cascade of `enhancedParseColor` after the brand-colour
check, on the trimmed string: hex, rgb, hsl, named table, black fallback
(code.ts:458-584).  A branch whose guard matches but whose body fails
(caught throw, too few components) falls through to the next one, exactly
as in the source. -/
def parseColorCore (t : List Char) : Color :=
  let viaHex := if startsWithL t ['#'] then hexBranch t else none
  match viaHex with
  | some c => c
  | none =>
    let viaRgb := if startsWithL t "rgb".toList then rgbBranch t else none
    match viaRgb with
    | some c => c
    | none =>
      let viaHsl := if startsWithL t "hsl".toList then hslBranch t else none
      match viaHsl with
      | some c => c
      | none => (namedLookup (listToLower t)).getD black

/-- An input to `enhancedParseColor`: a string or a structured
`{r,g,b,a?}` object. -/
inductive ColorInput where
  | str (s : String)
  | obj (r g b : JSNum) (a : Option JSNum)
deriving DecidableEq, Repr

/-- JavaScript truthiness of a `ColorInput` ("" is falsy, objects are
truthy); with `undefined` handled by the `Option` wrapper at the call. -/
def ColorInput.falsy : ColorInput → Bool
  | .str s => s = ""
  | .obj .. => false

/-- The brand-colour map: a string-keyed object. -/
def BrandMap := List (String × String)

/-- Object property read `brandColors[colorKey]`. -/
def brandGet (m : BrandMap) (key : List Char) : Option String :=
  (m.find? (fun p => decide (p.1.toList = key))).map (·.2)

/-- The full `enhancedParseColor(colorInput, brandColors?)`
(code.ts:427-584).  The brand branch's recursive call
`enhancedParseColor(brandColors[colorKey])` passes no brand map, so on a
truthy (nonempty) mapped value it reduces to the format cascade on the
trimmed value; that single inlined step is written out here. -/
def enhancedParseColor (input : Option ColorInput) (brand : Option BrandMap) :
    Color :=
  match input with
  | none => black
  | some ci =>
    if ci.falsy then black
    else
      match ci with
      | .obj r g b a => ⟨r, g, b, a.getD (num 1)⟩
      | .str s =>
        let t := jsTrim s.toList
        let viaBrand : Option Color :=
          match brand with
          | some m =>
            if startsWithL t "brand:".toList || startsWithL t ['#'] then
              let key := if startsWithL t "brand:".toList then t.drop 6
                         else t.drop 1
              match brandGet m key with
              | some v => if v = "" then none
                          else some (parseColorCore (jsTrim v.toList))
              | none => none
            else none
          | none => none
        match viaBrand with
        | some c => c
        | none => parseColorCore t

/-! ### Session state and the host document (code.ts:52-139).

The host document is abstracted to exactly what the session tracker reads:
the set of resolvable node ids (the domain of `figma.getNodeById`), the
subset of those that are pages, and the currently focused page.  Figma node
ids are opaque nonempty strings of the shape "n:m". -/

/-- The wireframe record stored in `sessionState.createdPages`
(code.ts:73-78). -/
structure Wireframe where
  name : String
  wfId : String
  pageIds : List String
  createdAt : ℕ
deriving DecidableEq, Repr

/-- The mutable fields of `sessionState`; `createdPages` is a Map, kept in
insertion order. -/
structure SessionState where
  createdPages : List (String × Wireframe)
  activeWireframeId : Option String
  activePageId : Option String
deriving DecidableEq, Repr

/-- Lookup in the `createdPages` map. -/
def pagesGet (m : List (String × Wireframe)) (k : String) : Option Wireframe :=
  (m.find? (fun p => decide (p.1 = k))).map (·.2)

/-- The slice of the host document the session tracker and the wireframe
handler read. -/
structure Doc where
  nodeIds : List String
  pageIds : List String
  currentPageId : String
  currentPageName : String
deriving DecidableEq, Repr

/-- The session state as freshly created at plugin start (code.ts:53-64). -/
def initialSession : SessionState := ⟨[], none, none⟩

/-- Model of `sessionState.setActiveWireframe` (code.ts:67-82):
unconditionally update the active ids, and register the wireframe only when
`createdPages` has no entry for it yet. -/
def setActiveWireframe (st : SessionState) (wireframeId pageId name : String)
    (now : ℕ) : SessionState :=
  let st1 := { st with activeWireframeId := some wireframeId,
                       activePageId := some pageId }
  if (pagesGet st1.createdPages wireframeId).isSome then st1
  else { st1 with createdPages :=
          st1.createdPages ++ [(wireframeId, ⟨name, wireframeId, [pageId], now⟩)] }

/-- Model of `sessionState.getActivePageId` (code.ts:85-100).  The source
tests `if (this.activePageId)`, which in JavaScript is false for null and
for the empty string; a stored id is returned when `figma.getNodeById`
still resolves it, cleared to null when it does not, and the currently
focused page is the fallback.  The call is total: it never throws. -/
def getActivePageId (doc : Doc) (st : SessionState) : String × SessionState :=
  match st.activePageId with
  | some p =>
    if p ≠ "" then
      if p ∈ doc.nodeIds then (p, st)
      else (doc.currentPageId, { st with activePageId := none })
    else (doc.currentPageId, st)
  | none => (doc.currentPageId, st)

/-- Model of `sessionState.switchToPage` (code.ts:103-111). -/
def switchToPage (doc : Doc) (st : SessionState) (pageId : String) :
    Bool × Doc × SessionState :=
  if pageId ∈ doc.pageIds then
    (true, { doc with currentPageId := pageId },
     { st with activePageId := some pageId })
  else (false, doc, st)

/-! ### CREATE_WIREFRAME (code.ts:1042-1116, 1121-1136). -/

/-- JavaScript `x || d` on an optional number: `undefined`, 0 and NaN pick
the default. -/
def qTruthyOr (x : Option ℚ) (d : ℚ) : ℚ :=
  match x with
  | some v => if v ≠ 0 then v else d
  | none => d

/-- JavaScript `s || d` on an optional string: `undefined` and "" pick the
default. -/
def sTruthyOr (x : Option String) (d : String) : String :=
  match x with
  | some v => if v ≠ "" then v else d
  | none => d

/-- The CREATE_WIREFRAME payload after destructuring.  `dimWidth` and
`dimHeight` stand for `dimensions?.width` and `dimensions?.height` with the
destructuring default `\x7bwidth: 1440, height: 900\x7d` already folded in:
an absent `dimensions` object arrives here as `some 1440` / `some 900`. -/
structure CWPayload where
  description : Option String
  pages : Option (List String)
  style : Option String
  dimWidth : Option ℚ
  dimHeight : Option ℚ
  renamePage : Bool
deriving DecidableEq, Repr

/-- One frame allocated by the wireframe loop, with the fields the handler
assigns (code.ts:1084-1098). -/
structure FrameN where
  id : String
  name : String
  x : ℚ
  width : ℚ
  height : ℚ
  fill : ℚ × ℚ × ℚ
deriving DecidableEq, Repr

/-- Model of `applyBaseStyle` (code.ts:1121-1136): the background colour
selected by the lowercased style name. -/
def applyBaseStyle (style : String) : ℚ × ℚ × ℚ :=
  let l := listToLower style.toList
  if l = "minimal".toList then (1, 1, 1)
  else if l = "dark".toList then (1/10, 1/10, 1/10)
  else if l = "colorful".toList then (98/100, 98/100, 98/100)
  else (1, 1, 1)

/-- The success payload of the CREATE_WIREFRAME response
(code.ts:1105-1115). -/
structure CWResult where
  wireframeId : String
  pageIds : List String
  activePageId : String
  activeWireframeId : String
deriving DecidableEq, Repr

/-- Model of `handleCreateWireframe` (code.ts:1042-1116).  `freshId i` is
the id the host assigns to the i-th created frame; `now` is the clock.  A
missing payload throws (code.ts:1050), which the dispatcher converts into a
failure response.  The i-th frame is created with the loop's
`pageFrames.length * (width + 100)` abscissa and appended to the current
page; `setActiveWireframe` is called with the first frame's id and the
hosting page's id. -/
def handleCreateWireframe (payload : Option CWPayload) (doc : Doc)
    (st : SessionState) (freshId : ℕ → String) (now : ℕ) :
    Except String (CWResult × List FrameN × SessionState × Doc) :=
  match payload with
  | none => .error "No payload provided for CREATE_WIREFRAME command"
  | some p =>
    let description := p.description.getD "Untitled Wireframe"
    let pages := p.pages.getD ["Home"]
    let style := p.style.getD "minimal"
    let width := qTruthyOr p.dimWidth 1440
    let height := qTruthyOr p.dimHeight 900
    let doc1 := { doc with currentPageName :=
        if p.renamePage then
          "Wireframe: " ++ (description.take 20) ++
          (if 20 < description.length then "..." else "")
        else doc.currentPageName }
    let frames := (pages.enum).map (fun e =>
      (⟨freshId e.1, e.2, (e.1 : ℚ) * (width + 100), width, height,
        applyBaseStyle style⟩ : FrameN))
    let pageIds := frames.map (·.id)
    let wireframeId := if 0 < pageIds.length then pageIds.getD 0 ""
                       else doc1.currentPageId
    let st1 := setActiveWireframe st wireframeId doc1.currentPageId
                 description now
    .ok (⟨wireframeId, pageIds, doc1.currentPageId, wireframeId⟩,
         frames, st1, doc1)

/-! ### ADD_ELEMENT positioning (code.ts:1203-1245) and point counts
(code.ts:1717-1720, 1748-1751). -/

/-- The `position` object of an ADD_ELEMENT payload; each field may be
absent. -/
structure PositionSpec where
  x : Option ℚ
  y : Option ℚ
  width : Option ℚ
  height : Option ℚ
deriving DecidableEq, Repr

/-- Model of the coordinate computation of `handleAddElement`
(code.ts:1203-1236): start from the explicit coordinates (defaulting to 0),
then, whenever `properties.layoutPosition` is truthy, overwrite them from
the parent frame's dimensions (or the viewport bounds when there is no
parent frame); an unrecognised keyword leaves the explicit coordinates in
place.  The resulting pair is the one every element branch assigns to the
created node. -/
def computeAddElementPosition (position : PositionSpec)
    (layoutPosition : Option String) (parentDims : Option (ℚ × ℚ))
    (viewport : ℚ × ℚ) : ℚ × ℚ :=
  let x0 := position.x.getD 0
  let y0 := position.y.getD 0
  match layoutPosition with
  | some lp =>
    if lp ≠ "" then
      let pw := (parentDims.map (·.1)).getD viewport.1
      let ph := (parentDims.map (·.2)).getD viewport.2
      if lp = "top" then ((pw - qTruthyOr position.width 100) / 2, 0)
      else if lp = "bottom" then
        ((pw - qTruthyOr position.width 100) / 2,
         ph - qTruthyOr position.height 50)
      else if lp = "left" then (0, (ph - qTruthyOr position.height 100) / 2)
      else if lp = "right" then
        (pw - qTruthyOr position.width 50,
         (ph - qTruthyOr position.height 100) / 2)
      else if lp = "center" then
        ((pw - qTruthyOr position.width 100) / 2,
         (ph - qTruthyOr position.height 100) / 2)
      else (x0, y0)
    else (x0, y0)
  | none => (x0, y0)

/-- A dynamically typed payload field, as far as the point-count guards
inspect it. -/
inductive JSVal where
  | number (x : JSNum)
  | strv (s : String)
  | boolv (b : Bool)
deriving DecidableEq, Repr

/-- The guarded point-count assignment shared by the POLYGON and STAR
branches: `if (properties.pointCount && typeof properties.pointCount ===
'number') node.pointCount = Math.max(lo, Math.min(hi, pointCount))`.  The
truthiness test runs first, so 0 and NaN fall through to the host default
exactly like an absent or non-numeric field. -/
def clampedPointCount (lo hi : ℚ) (pc : Option JSVal) (hostDefault : ℚ) : ℚ :=
  match pc with
  | some (.number (num q)) => if q ≠ 0 then max lo (min hi q) else hostDefault
  | _ => hostDefault

/-- Point count given to a created POLYGON node (code.ts:1717-1720). -/
def polygonPointCount (pc : Option JSVal) (hostDefault : ℚ) : ℚ :=
  clampedPointCount 3 12 pc hostDefault

/-- Point count given to a created STAR node (code.ts:1748-1751). -/
def starPointCount (pc : Option JSVal) (hostDefault : ℚ) : ℚ :=
  clampedPointCount 3 20 pc hostDefault

/-! ### EXPORT_DESIGN (code.ts:2331-2442). -/

/-- The host capabilities `handleExportDesign` consumes, indexed by node
id: the exportAsync capability probe, the per-page selection, the node
name, and the outcome of one export call (format and scale applied). -/
structure XHost where
  exportable : String → Bool
  selectionOf : String → List String
  nameOf : String → String
  exportRun : String → String → ℚ → Except String String

/-- The export settings object after destructuring; `scaleValue` stands for
`settings.constraint?.value`. -/
structure XSettings where
  format : Option String
  scaleValue : Option ℚ
deriving DecidableEq, Repr

/-- The EXPORT_DESIGN payload after destructuring.  An absent `settings`
object arrives as the destructuring default (format PNG, scale 1). -/
structure XPayload where
  selection : Option (List String)
  settings : Option XSettings
deriving DecidableEq, Repr

/-- One entry of the success response's `files` list:
name, base64 data, lowercased format, node id (code.ts:2416-2421). -/
structure XFile where
  name : String
  data : String
  format : String
  nodeId : String
deriving DecidableEq, Repr

/-- The page-context switch at the start of EXPORT_DESIGN
(code.ts:2354-2362): read the active page id and, when it is truthy and
resolves to a PAGE node, make it the current page. -/
def exportContext (doc : Doc) (st : SessionState) : Doc × SessionState :=
  let r := getActivePageId doc st
  (if r.1 ≠ "" ∧ r.1 ∈ doc.pageIds then { doc with currentPageId := r.1 }
   else doc, r.2)

/-- Resolution of the nodes to export (code.ts:2364-2390): the payload
selection filtered to resolvable exportable nodes, else the current page's
selection filtered to exportable nodes, else the current page itself when
it has the export capability. -/
def resolveExportNodes (sel : List String) (doc : Doc) (host : XHost) :
    List String :=
  if sel ≠ [] then
    sel.filter (fun id => id ∈ doc.nodeIds && host.exportable id)
  else if host.selectionOf doc.currentPageId ≠ [] then
    (host.selectionOf doc.currentPageId).filter host.exportable
  else if host.exportable doc.currentPageId then [doc.currentPageId]
  else []

/-- Model of `Promise.all` over the export calls: the first rejection
rejects the join, otherwise all results are collected in order. -/
def joinAll : List (Except String XFile) → Except String (List XFile)
  | [] => .ok []
  | .error e :: _ => .error e
  | .ok a :: rest =>
    match joinAll rest with
    | .ok l => .ok (a :: l)
    | .error e => .error e

/-- The export format after defaulting: `settings.format || 'PNG'`, with
the destructuring default folded in for an absent settings object. -/
def exportFmt (p : XPayload) : String :=
  match p.settings with
  | none => "PNG"
  | some s => sTruthyOr s.format "PNG"

/-- The export scale after defaulting: `settings.constraint?.value || 1`. -/
def exportScale (p : XPayload) : ℚ :=
  match p.settings with
  | none => 1
  | some s => qTruthyOr s.scaleValue 1

/-- Model of `handleExportDesign` (code.ts:2331-2442).  A missing payload,
an empty set of valid exportable nodes, or any failed export call throws,
which the dispatcher turns into a single failure response; otherwise the
joined file list is the success data.  The session state is returned after
the two `getActivePageId` reads. -/
def handleExportDesign (payload : Option XPayload) (doc : Doc)
    (host : XHost) (st : SessionState) :
    Except String (List XFile) × SessionState × Doc :=
  match payload with
  | none => (.error "No payload provided for EXPORT_DESIGN command", st, doc)
  | some p =>
    let sel := p.selection.getD []
    let ctx := exportContext doc st
    let doc1 := ctx.1
    let st1 := ctx.2
    let nodesToExport := resolveExportNodes sel doc1 host
    if nodesToExport = [] then
      (.error "No valid nodes to export. Please select at least one node or specify node IDs.",
       st1, doc1)
    else
      let results := nodesToExport.map (fun id =>
        (host.exportRun id (exportFmt p) (exportScale p)).map (fun b64 =>
          (⟨host.nameOf id, b64,
            listToLower (exportFmt p).toList |> List.asString, id⟩ : XFile)))
      match joinAll results with
      | .ok files =>
        let r2 := getActivePageId doc1 st1
        (.ok files, r2.2, doc1)
      | .error e => (.error ("Export failed: " ++ e), st1, doc1)

/-! ### The command dispatcher (code.ts:248-351).

Each handler is summarised by the response-emission behaviour read off its
source: every handler except the UI_READY arm sends exactly one response
that carries `id: msg.id`, either directly (success and internally caught
failure paths) or through the dispatcher's catch (a throw that happens
before any send).  `ADD_ELEMENT` returns its result object and the
dispatcher itself sends (code.ts:270-280).  The UI_READY arm sends its
response without any `id` field (code.ts:253-263). -/

/-- An inbound command envelope: `\x7btype, payload, id\x7d`. -/
structure Envelope where
  type : String
  id : String
deriving DecidableEq, Repr

/-- An outbound response envelope, with the fields C1 inspects. -/
structure PluginResponse where
  rtype : String
  success : Bool
  error : Option String
  id : Option String
deriving DecidableEq, Repr

/-- Summary of one handler run: the data it would send on success, or the
message of the error it throws or converts into a failure response. -/
abbrev HOutcome := Except String Unit

/-- The per-command handler outcomes a dispatch is performed against. -/
structure HandlerOutcomes where
  createWireframe : HOutcome
  addElementSuccess : Bool
  addElementError : Option String
  styleElement : HOutcome
  modifyElement : HOutcome
  arrangeLayout : HOutcome
  exportDesign : HOutcome
  getSelection : HOutcome
  getCurrentPage : HOutcome
  createRectangle : HOutcome
  createEllipse : HOutcome
  createText : HOutcome
  createFrame : HOutcome
  createComponent : HOutcome
  createLine : HOutcome

/-- The single response produced for a handler that either sends a success
response itself or throws a message that becomes a failure response; both
carry the inbound envelope's id. -/
def respOf (e : Envelope) : HOutcome → PluginResponse
  | .ok _ => ⟨e.type, true, none, some e.id⟩
  | .error m => ⟨e.type, false, some m, some e.id⟩

/-- Model of the dispatcher `figma.ui.onmessage` (code.ts:248-351): route
on the envelope's type and emit the responses sent while handling it. -/
def dispatch (e : Envelope) (h : HandlerOutcomes) : List PluginResponse :=
  if e.type = "UI_READY" then [⟨"UI_READY", true, none, none⟩]
  else if e.type = "CREATE_WIREFRAME" then [respOf e h.createWireframe]
  else if e.type = "ADD_ELEMENT" then
    [⟨e.type, h.addElementSuccess, h.addElementError, some e.id⟩]
  else if e.type = "STYLE_ELEMENT" then [respOf e h.styleElement]
  else if e.type = "MODIFY_ELEMENT" then [respOf e h.modifyElement]
  else if e.type = "ARRANGE_LAYOUT" then [respOf e h.arrangeLayout]
  else if e.type = "EXPORT_DESIGN" then [respOf e h.exportDesign]
  else if e.type = "GET_SELECTION" then [respOf e h.getSelection]
  else if e.type = "GET_CURRENT_PAGE" then [respOf e h.getCurrentPage]
  else if e.type = "CREATE_RECTANGLE" then [respOf e h.createRectangle]
  else if e.type = "CREATE_ELLIPSE" then [respOf e h.createEllipse]
  else if e.type = "CREATE_TEXT" then [respOf e h.createText]
  else if e.type = "CREATE_FRAME" then [respOf e h.createFrame]
  else if e.type = "CREATE_COMPONENT" then [respOf e h.createComponent]
  else if e.type = "CREATE_LINE" then [respOf e h.createLine]
  else [⟨e.type, false, some ("Unknown command type: " ++ e.type), some e.id⟩]

/-! ### Spec-side definitions for the round-trip and range claims. -/

/-- A hex colour literal in one of the supported forms listed by the spec:
a hash followed by 3, 4, 6 or 8 hexadecimal digits. -/
def isHexLiteral (s : String) : Bool :=
  startsWithL s.toList ['#'] &&
  ((s.toList.drop 1).all (fun c => (hexVal c).isSome) &&
   ((s.toList.drop 1).length = 3 || (s.toList.drop 1).length = 4 ||
    (s.toList.drop 1).length = 6 || (s.toList.drop 1).length = 8))

/-- Lowercase hex digit for a value below 16. -/
def hexChar (n : ℕ) : Char :=
  if n < 10 then Char.ofNat (48 + n) else Char.ofNat (87 + n)

/-- Two hex digits of a byte. -/
def byteHexChars (n : ℕ) : List Char := [hexChar (n / 16), hexChar (n % 16)]

/-- A channel rounded to a byte, as the round-trip of claim C4 formats it. -/
def roundByte : JSNum → ℕ
  | num q => (⌊q * 255 + 1/2⌋).toNat
  | nan => 0

/-- The canonical output format of the round-trip claim: each channel
rounded to a byte and printed as two hex digits after a hash. -/
def formatHexRRGGBBAA (c : Color) : String :=
  ⟨'#' :: (byteHexChars (roundByte c.r) ++ byteHexChars (roundByte c.g) ++
           byteHexChars (roundByte c.b) ++ byteHexChars (roundByte c.a))⟩

/-- A channel that is an exact byte fraction n/255. -/
def ChannelByte (x : JSNum) : Prop :=
  ∃ n : ℕ, n ≤ 255 ∧ x = num ((n : ℚ) / 255)

/-- Two channels that are real numbers within 1/255 of each other. -/
def chanClose (x y : JSNum) : Prop :=
  ∃ q1 q2 : ℚ, x = num q1 ∧ y = num q2 ∧ |q1 - q2| ≤ 1/255

/-! ### Concrete instances used by witnesses and counterexamples. -/

/-- A handler-outcome assignment where every handler succeeds. -/
def allOk : HandlerOutcomes :=
  ⟨.ok (), true, none, .ok (), .ok (), .ok (), .ok (), .ok (), .ok (),
   .ok (), .ok (), .ok (), .ok (), .ok (), .ok ()⟩

/-- A one-page host document. -/
def doc0 : Doc := ⟨["0:1"], ["0:1"], "0:1", "Page 1"⟩

/-- A session whose stored active page no longer exists in `doc0`. -/
def st0 : SessionState := ⟨[], some "9:9", some "9:9"⟩

/-- Fresh frame ids handed out by the host in the wireframe tests. -/
def cwFresh : ℕ → String := fun i => if i = 0 then "1:1" else "1:2"

/-- An export host whose every export call fails. -/
def xhostFail : XHost :=
  ⟨fun _ => true, fun _ => ["2:1", "2:2"], fun _ => "Node",
   fun _ _ _ => .error "boom"⟩

/-- An export host with no exportable node anywhere. -/
def xhostNone : XHost :=
  ⟨fun _ => false, fun _ => [], fun _ => "Node", fun _ _ _ => .ok "AA"⟩

/-- An EXPORT_DESIGN payload selecting the page node of `doc0`. -/
def xp0 : XPayload := ⟨some ["0:1"], none⟩

/-- An EXPORT_DESIGN payload with no selection. -/
def xpEmpty : XPayload := ⟨none, none⟩

/-! ## Theorems -/

/-- Helper: the response synthesised for a throw-or-send handler always
carries the inbound envelope's id. -/
theorem respOf_id (e : Envelope) (o : HOutcome) : (respOf e o).id = some e.id := by
  cases o <;> rfl

/-- Helper: prepending one more arm to a ladder of singleton emissions
keeps the emission count at one. -/
theorem length_ite_one {α : Type} (c : Prop) [Decidable c] (a : α) (l : List α)
    (hl : l.length = 1) : (if c then [a] else l).length = 1 := by
  by_cases h : c <;> simp [h, hl]

/-- Helper: an arm whose response carries the target id preserves the
all-responses-carry-it property of the remaining ladder. -/
theorem mem_ite_id (c : Prop) [Decidable c] (a : PluginResponse)
    (l : List PluginResponse) (target : Option String)
    (ha : a.id = target) (hl : ∀ r ∈ l, r.id = target) :
    ∀ r ∈ (if c then [a] else l), r.id = target := by
  by_cases h : c
  · simpa [h] using ha
  · simpa [h] using hl

/-- Claim C1, corrected.  Every inbound envelope produces exactly one
response; for every command type other than UI_READY the response carries
the inbound envelope's id, but the UI_READY response is sent without an id
(code.ts:253-263), which is the counterexample to the claim as stated. -/
theorem C1_dispatch_exactly_one_response (e : Envelope) (h : HandlerOutcomes) :
    (dispatch e h).length = 1 ∧
    (e.type ≠ "UI_READY" → ∀ r ∈ dispatch e h, r.id = some e.id) := by
  constructor
  · unfold dispatch
    repeat refine length_ite_one _ _ _ ?_
    rfl
  · intro hne
    unfold dispatch
    rw [if_neg hne]
    repeat refine mem_ite_id _ _ _ _ (by first | exact respOf_id e _ | rfl) ?_
    intro r hr
    simp only [List.mem_singleton] at hr
    subst hr
    rfl

/-- Claim C1 witness: a concrete ADD_ELEMENT envelope gets exactly one
response carrying its id. -/
theorem C1_witness :
    (dispatch ⟨"ADD_ELEMENT", "req-2"⟩ allOk).length = 1 ∧
    ∀ r ∈ dispatch ⟨"ADD_ELEMENT", "req-2"⟩ allOk, r.id = some "req-2" :=
  ⟨(C1_dispatch_exactly_one_response ⟨"ADD_ELEMENT", "req-2"⟩ allOk).1,
   fun r hr =>
     (C1_dispatch_exactly_one_response ⟨"ADD_ELEMENT", "req-2"⟩ allOk).2
       (by decide) r hr⟩

/-- Claim C1 counterexample: the UI_READY envelope is answered by a single
response that carries no correlation id at all, so the response's id does
not equal the inbound envelope's id. -/
theorem C1_counterexample :
    dispatch ⟨"UI_READY", "req-1"⟩ allOk = [⟨"UI_READY", true, none, none⟩] ∧
    ∀ r ∈ dispatch ⟨"UI_READY", "req-1"⟩ allOk, r.id ≠ some "req-1" := by
  decide

/-- Claim C3, confirmed.  On every call, when the stored activePageId still
resolves to an existing node it is returned with the state unchanged;
otherwise the stored id is cleared to null and the host's currently focused
page id is returned.  The hypothesis records that Figma node ids are
nonempty strings (ids have the shape "n:m"), which is what the source's
JavaScript truthiness test assumes; the function is total, so the call
never throws. -/
theorem C3_getActivePageId_fallback (doc : Doc) (st : SessionState)
    (hne : st.activePageId ≠ some "") :
    (∀ p, st.activePageId = some p → p ∈ doc.nodeIds →
       getActivePageId doc st = (p, st)) ∧
    ((∀ p, st.activePageId = some p → p ∉ doc.nodeIds) →
       getActivePageId doc st =
         (doc.currentPageId, { st with activePageId := none })) := by
  obtain ⟨cp, awf, ap⟩ := st
  cases hap : ap with
  | none =>
    subst hap
    exact ⟨fun p hp => by simp at hp, fun _ => by simp [getActivePageId]⟩
  | some p =>
    subst hap
    have hpne : p ≠ "" := by
      intro hcontra
      exact hne (by simp [hcontra])
    constructor
    · intro p' hp' hmem
      injection hp' with hpp
      subst hpp
      simp [getActivePageId, hpne, hmem]
    · intro hno
      have hnm : p ∉ doc.nodeIds := hno p rfl
      simp [getActivePageId, hpne, hnm]

/-- Claim C3 witness: with the stored page 9:9 deleted from the host
document, the call returns the focused page 0:1 and clears the stored id. -/
theorem C3_witness :
    getActivePageId doc0 st0 = ("0:1", ⟨[], some "9:9", none⟩) :=
  (C3_getActivePageId_fallback doc0 st0 (by decide)).2
    (fun p hp => by injection hp with h; subst h; decide)

/-- Claim C7, corrected.  A truthy layoutPosition keyword always overwrites
the explicit coordinates (code.ts:1208-1236); the explicit position.x/y
(defaulting to 0) are used exactly when layoutPosition is absent, empty, or
not one of the five keywords.  Each keyword position is computed from the
parent frame's dimensions, with the viewport bounds as fallback, centred
on the cross axis and flush on the named edge. -/
theorem C7_layoutPosition_precedence (pos : PositionSpec)
    (pd : Option (ℚ × ℚ)) (vp : ℚ × ℚ) :
    (computeAddElementPosition pos none pd vp = (pos.x.getD 0, pos.y.getD 0)) ∧
    (∀ lp, lp ≠ "top" → lp ≠ "bottom" → lp ≠ "left" → lp ≠ "right" →
       lp ≠ "center" →
       computeAddElementPosition pos (some lp) pd vp =
         (pos.x.getD 0, pos.y.getD 0)) ∧
    (computeAddElementPosition pos (some "top") pd vp =
       (((pd.map (·.1)).getD vp.1 - qTruthyOr pos.width 100) / 2, 0)) ∧
    (computeAddElementPosition pos (some "bottom") pd vp =
       (((pd.map (·.1)).getD vp.1 - qTruthyOr pos.width 100) / 2,
        (pd.map (·.2)).getD vp.2 - qTruthyOr pos.height 50)) ∧
    (computeAddElementPosition pos (some "left") pd vp =
       (0, ((pd.map (·.2)).getD vp.2 - qTruthyOr pos.height 100) / 2)) ∧
    (computeAddElementPosition pos (some "right") pd vp =
       ((pd.map (·.1)).getD vp.1 - qTruthyOr pos.width 50,
        ((pd.map (·.2)).getD vp.2 - qTruthyOr pos.height 100) / 2)) ∧
    (computeAddElementPosition pos (some "center") pd vp =
       (((pd.map (·.1)).getD vp.1 - qTruthyOr pos.width 100) / 2,
        ((pd.map (·.2)).getD vp.2 - qTruthyOr pos.height 100) / 2)) := by
  refine ⟨rfl, ?_, ?_, ?_, ?_, ?_, ?_⟩
  · intro lp h1 h2 h3 h4 h5
    by_cases h0 : lp = ""
    · simp [computeAddElementPosition, h0]
    · simp [computeAddElementPosition, h0, h1, h2, h3, h4, h5]
  all_goals simp +decide [computeAddElementPosition]

/-- Claim C7 witness: explicit coordinates are kept when no keyword is
supplied, and the top keyword is computed from the parent dimensions. -/
theorem C7_witness :
    computeAddElementPosition ⟨some 5, some 7, none, none⟩ (some "middle")
      (some (200, 100)) (1000, 800) = (5, 7) :=
  (C7_layoutPosition_precedence ⟨some 5, some 7, none, none⟩
      (some (200, 100)) (1000, 800)).2.1 "middle"
    (by decide) (by decide) (by decide) (by decide) (by decide)

/-- Claim C7 counterexample: a payload that supplies both explicit
coordinates (5, 7) and the keyword top is placed at the keyword position
(50, 0), not at the explicit coordinates, so explicit x/y do not take
precedence. -/
theorem C7_counterexample :
    computeAddElementPosition ⟨some 5, some 7, none, none⟩ (some "top")
      (some (200, 100)) (1000, 800) = (50, 0) ∧
    ((50 : ℚ), (0 : ℚ)) ≠ ((5 : ℚ), (7 : ℚ)) := by
  constructor
  · simp +decide only [computeAddElementPosition, qTruthyOr, Option.getD]
    norm_num
  · norm_num

/-- Claim C10, corrected.  A nonzero numeric pointCount is clamped to
max(3, min(12, p)) for polygons and max(3, min(20, p)) for stars; but the
guard `properties.pointCount && typeof properties.pointCount === 'number'`
is a truthiness test, so a zero or NaN pointCount (and any missing or
non-numeric one) leaves the host default unchanged. -/
theorem C10_pointCount_clamped (q d : ℚ) (hq : q ≠ 0) :
    (polygonPointCount (some (.number (num q))) d = max 3 (min 12 q)) ∧
    (starPointCount (some (.number (num q))) d = max 3 (min 20 q)) ∧
    (polygonPointCount none d = d) ∧ (starPointCount none d = d) ∧
    (polygonPointCount (some (.number (num 0))) d = d) ∧
    (starPointCount (some (.number (num 0))) d = d) ∧
    (polygonPointCount (some (.number nan)) d = d) ∧
    (starPointCount (some (.number nan)) d = d) ∧
    (∀ strpc, polygonPointCount (some (.strv strpc)) d = d) ∧
    (∀ strpc, starPointCount (some (.strv strpc)) d = d) := by
  simp [polygonPointCount, starPointCount, clampedPointCount, hq]

/-- Claim C10 witness: a 30-point star request is clamped to 20 while the
polygon clamp caps at 12, and a missing pointCount keeps the default 5. -/
theorem C10_witness :
    polygonPointCount (some (.number (num 30))) 5 = max 3 (min 12 30) ∧
    starPointCount (some (.number (num 30))) 5 = max 3 (min 20 30) ∧
    polygonPointCount none 5 = 5 :=
  ⟨(C10_pointCount_clamped 30 5 (by norm_num)).1,
   (C10_pointCount_clamped 30 5 (by norm_num)).2.1,
   (C10_pointCount_clamped 30 5 (by norm_num)).2.2.1⟩

/-- Claim C10 counterexample: a STAR with numeric pointCount 0 keeps the
host's default point count (5 in Figma), while the claim demands
max(3, min(20, 0)) = 3. -/
theorem C10_counterexample :
    starPointCount (some (.number (num 0))) 5 = 5 ∧
    (5 : ℚ) ≠ max 3 (min 20 0) := by
  constructor
  · norm_num [starPointCount, clampedPointCount]
  · norm_num

/-- Helper: the prefix test characterised as list decomposition. -/
theorem startsWithL_iff : ∀ (l p : List Char),
    startsWithL l p = true ↔ ∃ r, l = p ++ r
  | l, [] => by simp [startsWithL]
  | [], c :: p => by simp [startsWithL]
  | a :: l, c :: p => by
    simp [startsWithL, startsWithL_iff l p, List.cons_eq_cons, exists_and_left]

/-- Helper: the format cascade sends every string that begins with the
six characters of the brand marker to black: the hex, rgb and hsl guards
fail on its first character and no named-colour key contains a colon. -/
theorem parseColorCore_brand_black (rest : List Char) :
    parseColorCore ('b' :: 'r' :: 'a' :: 'n' :: 'd' :: ':' :: rest) = black := by
  simp +decide [parseColorCore, startsWithL, namedLookup, listToLower,
    jsToLower, String.toList]

/-- Claim C5, corrected.  A string whose trimmed form is a brand
reference - `brand:` followed by a key, or `#` followed by a key - whose
key resolves to a truthy value in the supplied map is answered by
reparsing that mapped value, but the recursive call
`enhancedParseColor(brandColors[colorKey])` (code.ts:453) passes no brand
map, so resolution is single-step: a mapped value that is itself a
`brand:` reference is not resolved further and yields opaque black
instead of the aliased colour.  An unresolvable (or empty-valued) lookup
falls through to the ordinary format cascade on the original string,
which for a `brand:`-prefixed string ends at opaque black, while a
`#`-prefixed one falls into the hex branch; either way the parser
terminates immediately and never throws. -/
theorem C5_brand_resolution_single_step (s : String) (m : BrandMap)
    (key : List Char)
    (hpre : jsTrim s.toList = "brand:".toList ++ key ∨
            jsTrim s.toList = '#' :: key) :
    (∀ v, brandGet m key = some v → v ≠ "" →
       enhancedParseColor (some (.str s)) (some m) =
         parseColorCore (jsTrim v.toList)) ∧
    (∀ v, brandGet m key = some v → v ≠ "" →
       startsWithL (jsTrim v.toList) "brand:".toList = true →
       enhancedParseColor (some (.str s)) (some m) = black) ∧
    ((brandGet m key = none ∨ brandGet m key = some "") →
       enhancedParseColor (some (.str s)) (some m) =
         parseColorCore (jsTrim s.toList)) ∧
    ((brandGet m key = none ∨ brandGet m key = some "") →
       jsTrim s.toList = "brand:".toList ++ key →
       enhancedParseColor (some (.str s)) (some m) = black) := by
  rcases hpre with h | h
  · have h' : jsTrim s.data = 'b' :: 'r' :: 'a' :: 'n' :: 'd' :: ':' :: key := by
      simpa using h
    have hs : s ≠ "" := by
      intro hc
      subst hc
      simp [jsTrim, String.toList] at h'
    have hmain : ∀ v, brandGet m key = some v → v ≠ "" →
        enhancedParseColor (some (.str s)) (some m) =
          parseColorCore (jsTrim v.toList) := by
      intro v hv hvne
      simp +decide [enhancedParseColor, ColorInput.falsy, hs, h', hv, hvne,
        startsWithL]
    have hfall : (brandGet m key = none ∨ brandGet m key = some "") →
        enhancedParseColor (some (.str s)) (some m) =
          parseColorCore (jsTrim s.toList) := by
      rintro (hn | hn) <;>
        simp +decide [enhancedParseColor, ColorInput.falsy, hs, h', hn,
          startsWithL]
    refine ⟨hmain, ?_, hfall, ?_⟩
    · intro v hv hvne hbv
      obtain ⟨r, hr⟩ := (startsWithL_iff _ _).mp hbv
      rw [hmain v hv hvne, hr,
          show "brand:".toList ++ r =
            'b' :: 'r' :: 'a' :: 'n' :: 'd' :: ':' :: r from rfl]
      exact parseColorCore_brand_black r
    · intro hn _
      rw [hfall hn, show jsTrim s.toList = jsTrim s.data from rfl, h']
      exact parseColorCore_brand_black key
  · have h' : jsTrim s.data = '#' :: key := by simpa using h
    have hs : s ≠ "" := by
      intro hc
      subst hc
      simp [jsTrim, String.toList] at h'
    have hmain : ∀ v, brandGet m key = some v → v ≠ "" →
        enhancedParseColor (some (.str s)) (some m) =
          parseColorCore (jsTrim v.toList) := by
      intro v hv hvne
      simp +decide [enhancedParseColor, ColorInput.falsy, hs, h', hv, hvne,
        startsWithL]
    have hfall : (brandGet m key = none ∨ brandGet m key = some "") →
        enhancedParseColor (some (.str s)) (some m) =
          parseColorCore (jsTrim s.toList) := by
      rintro (hn | hn) <;>
        simp +decide [enhancedParseColor, ColorInput.falsy, hs, h', hn,
          startsWithL]
    refine ⟨hmain, ?_, hfall, ?_⟩
    · intro v hv hvne hbv
      obtain ⟨r, hr⟩ := (startsWithL_iff _ _).mp hbv
      rw [hmain v hv hvne, hr,
          show "brand:".toList ++ r =
            'b' :: 'r' :: 'a' :: 'n' :: 'd' :: ':' :: r from rfl]
      exact parseColorCore_brand_black r
    · intro _ hbr
      rw [show jsTrim s.toList = jsTrim s.data from rfl, h'] at hbr
      simp +decide at hbr

/-- Claim C5 witness: a brand: reference and a #name reference, each
mapped to a plain colour string, are both answered by reparsing that
string. -/
theorem C5_witness :
    enhancedParseColor (some (.str "brand:primary"))
        (some [("primary", "red")]) =
      parseColorCore (jsTrim "red".toList) ∧
    enhancedParseColor (some (.str "#accent"))
        (some [("accent", "blue")]) =
      parseColorCore (jsTrim "blue".toList) :=
  ⟨(C5_brand_resolution_single_step "brand:primary" [("primary", "red")]
      ("primary".toList) (Or.inl (by decide))).1 "red" (by decide) (by decide),
   (C5_brand_resolution_single_step "#accent" [("accent", "blue")]
      ("accent".toList) (Or.inr (by decide))).1 "blue" (by decide) (by decide)⟩

/-- Claim C5 counterexample: with the map a ↦ brand:b, b ↦ red, the alias
brand:a does not resolve transitively to red; it yields opaque black. -/
theorem C5_counterexample :
    enhancedParseColor (some (.str "brand:a"))
        (some [("a", "brand:b"), ("b", "red")]) = black ∧
    enhancedParseColor (some (.str "red")) none =
      ⟨num 1, num 0, num 0, num 1⟩ ∧
    black ≠ (⟨num 1, num 0, num 0, num 1⟩ : Color) := by
  refine ⟨?_, ?_, ?_⟩
  · simp +decide [enhancedParseColor, ColorInput.falsy, jsTrim, parseColorCore,
      startsWithL, hexBranch, rgbBranch, hslBranch, namedLookup, listToLower,
      jsToLower, dupChars, brandGet, runsOf, runsOfAux, isDigitDot, decVal,
      hexVal, isJsWs, black, jsParseIntDec, jsParseIntHex, jsParseIntWith,
      leadDigits, digitsToNat, JSNum.divC, String.toList]
  · simp +decide [enhancedParseColor, ColorInput.falsy, jsTrim, parseColorCore,
      startsWithL, hexBranch, rgbBranch, hslBranch, namedLookup, listToLower,
      jsToLower, dupChars, runsOf, runsOfAux, isDigitDot, decVal,
      hexVal, isJsWs, jsParseIntDec, jsParseIntHex, jsParseIntWith,
      leadDigits, digitsToNat, JSNum.divC, String.toList]
  · simp [black]

/-- Helper: a fresh key appended to the wireframe directory is found with
exactly the appended record. -/
theorem pagesGet_append_self (m : List (String × Wireframe)) (k : String)
    (wf : Wireframe) (h : pagesGet m k = none) :
    pagesGet (m ++ [(k, wf)]) k = some wf := by
  unfold pagesGet at h ⊢
  induction m with
  | nil => simp
  | cons p m ih =>
    by_cases hk : p.1 = k
    · simp [List.find?, hk] at h
    · simp only [List.cons_append, List.find?] at h ⊢
      simp only [hk, decide_eq_false, Bool.false_eq_true] at h ⊢
      exact ih h

/-- Claim C8, corrected.  A CREATE_WIREFRAME with pages Home and About
creates two frames at x = 0 and x = width + 100 (so the second frame's x
is at least the first frame's x plus its width), answers with a pageIds
list of length 2, sets the first frame as the active wireframe, and
registers exactly one new wireframe in the session directory - but the
registered record's pageIds holds only the hosting page's id
(code.ts:76, 1102), so its length is 1, not 2. -/
theorem C8_createWireframe_registration (d sty : Option String)
    (w h : Option ℚ) (rn : Bool) (doc : Doc) (st : SessionState)
    (freshId : ℕ → String) (now : ℕ)
    (hfresh : pagesGet st.createdPages (freshId 0) = none) :
    ∃ res frames st1 doc1,
      handleCreateWireframe (some ⟨d, some ["Home", "About"], sty, w, h, rn⟩)
          doc st freshId now = .ok (res, frames, st1, doc1) ∧
      frames = [⟨freshId 0, "Home", 0, qTruthyOr w 1440, qTruthyOr h 900,
                 applyBaseStyle (sty.getD "minimal")⟩,
                ⟨freshId 1, "About", qTruthyOr w 1440 + 100, qTruthyOr w 1440,
                 qTruthyOr h 900, applyBaseStyle (sty.getD "minimal")⟩] ∧
      res.pageIds.length = 2 ∧
      (0 : ℚ) + qTruthyOr w 1440 ≤ qTruthyOr w 1440 + 100 ∧
      st1.activeWireframeId = some (freshId 0) ∧
      st1.activePageId = some doc.currentPageId ∧
      st1.createdPages = st.createdPages ++
        [(freshId 0, ⟨d.getD "Untitled Wireframe", freshId 0,
                      [doc.currentPageId], now⟩)] ∧
      pagesGet st1.createdPages (freshId 0) =
        some ⟨d.getD "Untitled Wireframe", freshId 0,
              [doc.currentPageId], now⟩ := by
  refine ⟨_, _, _, _, rfl, ?_, ?_, ?_, ?_, ?_, ?_, ?_⟩
  · simp [List.enum, List.enumFrom]
    try norm_num
  · simp [List.enum, List.enumFrom]
  · norm_num
  · simp [List.enum, List.enumFrom, setActiveWireframe, hfresh]
  · simp [List.enum, List.enumFrom, setActiveWireframe, hfresh]
  · simp [List.enum, List.enumFrom, setActiveWireframe, hfresh]
  · simp only [List.enum, List.enumFrom, setActiveWireframe, hfresh,
      Option.isSome_none, Bool.false_eq_true, if_false]
    simp [hfresh]
    exact pagesGet_append_self _ _ _ hfresh

/-- Claim C8 witness: the concrete two-page command on a fresh session
yields the computed frames, registration and active context. -/
theorem C8_witness :
    ∃ res frames st1 doc1,
      handleCreateWireframe
          (some ⟨none, some ["Home", "About"], none, none, none, false⟩)
          doc0 initialSession cwFresh 0 = .ok (res, frames, st1, doc1) ∧
      frames = [⟨"1:1", "Home", 0, 1440, 900, (1, 1, 1)⟩,
                ⟨"1:2", "About", 1440 + 100, 1440, 900, (1, 1, 1)⟩] ∧
      res.pageIds.length = 2 ∧
      (0 : ℚ) + 1440 ≤ 1440 + 100 ∧
      st1.activeWireframeId = some "1:1" ∧
      st1.activePageId = some "0:1" ∧
      st1.createdPages = [("1:1", ⟨"Untitled Wireframe", "1:1", ["0:1"], 0⟩)] ∧
      pagesGet st1.createdPages "1:1" =
        some ⟨"Untitled Wireframe", "1:1", ["0:1"], 0⟩ := by
  have h := C8_createWireframe_registration none none none none false
    doc0 initialSession cwFresh 0 (by decide)
  simpa +decide [qTruthyOr, applyBaseStyle, listToLower, jsToLower,
    String.toList, initialSession, doc0, cwFresh] using h

/-- Claim C8 counterexample: after the two-page command, the single
registered wireframe's pageIds list has length 1, not 2 - the session
record receives only the hosting page's id, while the length-2 list lives
in the response payload. -/
theorem C8_counterexample :
    (∃ res frames st1 doc1,
      handleCreateWireframe
          (some ⟨none, some ["Home", "About"], none, none, none, false⟩)
          doc0 initialSession cwFresh 0 = .ok (res, frames, st1, doc1) ∧
      res.wireframeId = "1:1" ∧
      (pagesGet st1.createdPages "1:1").map (fun wf => wf.pageIds.length) =
        some 1) ∧
    (1 : ℕ) ≠ 2 := by
  constructor
  · refine ⟨_, _, _, _, rfl, ?_, ?_⟩
    · rfl
    · simp +decide [List.enum, List.enumFrom, setActiveWireframe, pagesGet,
        initialSession, doc0, cwFresh]
  · decide

/-- Helper: a failing element makes the export join fail. -/
theorem joinAll_error_of_mem (f : String → Except String XFile)
    (l : List String) (n : String) (hn : n ∈ l) (e : String)
    (he : f n = .error e) : ∃ m, joinAll (l.map f) = .error m := by
  induction l with
  | nil => cases hn
  | cons a l ih =>
    rcases List.mem_cons.mp hn with hna | hnl
    · subst hna
      exact ⟨e, by simp [joinAll, he]⟩
    · cases hfa : f a with
      | error m => exact ⟨m, by simp [joinAll, hfa]⟩
      | ok x =>
        obtain ⟨m, hm⟩ := ih hnl
        exact ⟨m, by simp [joinAll, hfa, hm]⟩

/-- Claim C9, confirmed.  When the set of valid exportable nodes resolved
from the payload (or from the selection/current-page fallback) is empty,
EXPORT_DESIGN yields a failure; and when any single export call fails, the
joined export fails as a whole, so the command yields a single failure
with no partial results. -/
theorem C9_export_all_or_nothing (p : XPayload) (doc : Doc) (host : XHost)
    (st : SessionState) :
    (resolveExportNodes (p.selection.getD []) (exportContext doc st).1 host
        = [] →
      ∃ msg, (handleExportDesign (some p) doc host st).1 = .error msg) ∧
    (∀ n ∈ resolveExportNodes (p.selection.getD [])
        (exportContext doc st).1 host,
      ∀ e, host.exportRun n (exportFmt p) (exportScale p) = .error e →
      ∃ msg, (handleExportDesign (some p) doc host st).1 = .error msg) := by
  have hfail : ∀ hempty : resolveExportNodes (p.selection.getD [])
      (exportContext doc st).1 host = [],
      (handleExportDesign (some p) doc host st).1 =
        .error "No valid nodes to export. Please select at least one node or specify node IDs." := by
    intro hempty
    unfold handleExportDesign
    dsimp only
    rw [if_pos hempty]
  constructor
  · intro hempty
    exact ⟨_, hfail hempty⟩
  · intro n hn e he
    by_cases hempty : resolveExportNodes (p.selection.getD [])
        (exportContext doc st).1 host = []
    · exact ⟨_, hfail hempty⟩
    · obtain ⟨m, hm⟩ := joinAll_error_of_mem
        (fun id => (host.exportRun id (exportFmt p) (exportScale p)).map
          (fun b64 => (⟨host.nameOf id, b64,
            listToLower (exportFmt p).toList |> List.asString, id⟩ : XFile)))
        _ n hn e (by simp [he, Except.map])
      refine ⟨"Export failed: " ++ m, ?_⟩
      unfold handleExportDesign
      dsimp only
      rw [if_neg hempty, hm]

/-- Claim C9 witness: a host whose export call fails makes the whole
command fail, and a host with no exportable node makes it fail as well. -/
theorem C9_witness :
    (∃ msg, (handleExportDesign (some xp0) doc0 xhostFail initialSession).1 =
      .error msg) ∧
    (∃ msg, (handleExportDesign (some xpEmpty) doc0 xhostNone
        initialSession).1 = .error msg) :=
  ⟨(C9_export_all_or_nothing xp0 doc0 xhostFail initialSession).2 "0:1"
     (by decide) "boom" (by rfl),
   (C9_export_all_or_nothing xpEmpty doc0 xhostNone initialSession).1
     (by decide)⟩

/-- Helper: hex digit values are at most 15. -/
theorem hexVal_le {c : Char} {v : ℕ} (h : hexVal c = some v) : v ≤ 15 := by
  unfold hexVal at h
  split_ifs at h with h1 h2 h3 <;> injection h with hv <;> omega

/-- Helper: a hex digit is not JavaScript whitespace. -/
theorem hexVal_not_ws {c : Char} {v : ℕ} (h : hexVal c = some v) :
    isJsWs c = false := by
  unfold hexVal at h
  unfold isJsWs
  split_ifs at h with h1 h2 h3 <;> simp <;> omega

/-- Helper: a hex digit is none of the sign and marker characters that
`parseInt` strips. -/
theorem hexVal_ne_marks {c : Char} {v : ℕ} (h : hexVal c = some v) :
    c ≠ '-' ∧ c ≠ '+' ∧ c ≠ 'x' ∧ c ≠ 'X' := by
  refine ⟨?_, ?_, ?_, ?_⟩ <;> intro hc <;> subst hc <;> simp [hexVal] at h

/-- Helper: `parseInt` on a two-hex-digit string reads the byte value. -/
theorem jsParseIntHex_pair {a b : Char} {va vb : ℕ}
    (ha : hexVal a = some va) (hb : hexVal b = some vb) :
    jsParseIntHex [a, b] = num (((16 * va + vb : ℕ) : ℚ)) := by
  obtain ⟨ham, hap, hax, haX⟩ := hexVal_ne_marks ha
  obtain ⟨hbm, hbp, hbx, hbX⟩ := hexVal_ne_marks hb
  unfold jsParseIntHex jsParseIntWith
  simp only [List.dropWhile, hexVal_not_ws ha, Bool.false_eq_true, if_false,
    ham, hap, decide_eq_false, Bool.or_self, or_self, if_neg, false_or]
  simp [ham, hap, hax, haX, hbx, hbX, leadDigits, ha, hb, digitsToNat]
  ring

/-- Helper: the hex branch on a hash and three characters expands each one
and reads three doubled-digit bytes with opaque alpha. -/
theorem hexBranch_len3 (a b c : Char) :
    hexBranch ('#' :: [a, b, c]) =
      some ⟨(jsParseIntHex [a, a]).divC 255, (jsParseIntHex [b, b]).divC 255,
            (jsParseIntHex [c, c]).divC 255, num 1⟩ := by
  simp [hexBranch, dupChars]

/-- Helper: the hex branch on a hash and four characters reads four
doubled-digit bytes, the fourth as alpha. -/
theorem hexBranch_len4 (a b c d : Char) :
    hexBranch ('#' :: [a, b, c, d]) =
      some ⟨(jsParseIntHex [a, a]).divC 255, (jsParseIntHex [b, b]).divC 255,
            (jsParseIntHex [c, c]).divC 255, (jsParseIntHex [d, d]).divC 255⟩ := by
  simp [hexBranch, dupChars]

/-- Helper: the hex branch on a hash and six characters reads three bytes
with opaque alpha. -/
theorem hexBranch_len6 (a b c d e f : Char) :
    hexBranch ('#' :: [a, b, c, d, e, f]) =
      some ⟨(jsParseIntHex [a, b]).divC 255, (jsParseIntHex [c, d]).divC 255,
            (jsParseIntHex [e, f]).divC 255, num 1⟩ := by
  simp [hexBranch, dupChars]

/-- Helper: the hex branch on a hash and eight characters reads four
bytes, the fourth as alpha. -/
theorem hexBranch_len8 (a b c d e f g h : Char) :
    hexBranch ('#' :: [a, b, c, d, e, f, g, h]) =
      some ⟨(jsParseIntHex [a, b]).divC 255, (jsParseIntHex [c, d]).divC 255,
            (jsParseIntHex [e, f]).divC 255, (jsParseIntHex [g, h]).divC 255⟩ := by
  simp [hexBranch, dupChars]

/-- Helper: dropWhile is the identity on a list with no satisfying head. -/
theorem dropWhile_eq_self_of {p : Char → Bool} {l : List Char}
    (h : ∀ c ∈ l, p c = false) : l.dropWhile p = l := by
  cases l with
  | nil => rfl
  | cons a l => simp [List.dropWhile, h a (by simp)]

/-- Helper: trimming is the identity on a whitespace-free string. -/
theorem jsTrim_eq_self {l : List Char} (h : ∀ c ∈ l, isJsWs c = false) :
    jsTrim l = l := by
  unfold jsTrim
  rw [dropWhile_eq_self_of h,
      dropWhile_eq_self_of (fun c hc => h c (List.mem_reverse.mp hc)),
      List.reverse_reverse]

/-- Helper: on a truthy string with no brand map, the parser is the format
cascade on the trimmed character list. -/
theorem enhancedParseColor_str_none (s : String) (hs : s ≠ "") :
    enhancedParseColor (some (.str s)) none =
      parseColorCore (jsTrim s.toList) := by
  simp [enhancedParseColor, ColorInput.falsy, hs]

/-- Helper: on a hash-led string the cascade returns what the hex branch
produces, when it produces something. -/
theorem parseColorCore_hash {l : List Char} {c : Color}
    (h : hexBranch ('#' :: l) = some c) : parseColorCore ('#' :: l) = c := by
  simp +decide [parseColorCore, startsWithL, h]

/-- Helper: decomposition of a spec-form hex literal. -/
theorem isHexLiteral_parts {s : String} (h : isHexLiteral s = true) :
    ∃ body, s.toList = '#' :: body ∧ (∀ c ∈ body, (hexVal c).isSome) ∧
      (body.length = 3 ∨ body.length = 4 ∨ body.length = 6 ∨
       body.length = 8) := by
  unfold isHexLiteral at h
  simp only [Bool.and_eq_true, Bool.or_eq_true, decide_eq_true_eq,
    List.all_eq_true] at h
  obtain ⟨hpre, hall, hlen⟩ := h
  obtain ⟨r, hr⟩ := (startsWithL_iff _ _).mp hpre
  have hr' : s.toList = '#' :: r := by simpa using hr
  refine ⟨r, hr', ?_, ?_⟩
  · intro c hc
    apply hall
    rw [hr']
    simpa using hc
  · rw [hr'] at hlen
    simp at hlen
    tauto

/-- Helper: a byte channel out of a two-hex-digit substring. -/
theorem channelByte_pair {a b : Char} {va vb : ℕ}
    (ha : hexVal a = some va) (hb : hexVal b = some vb) :
    ChannelByte ((jsParseIntHex [a, b]).divC 255) := by
  refine ⟨16 * va + vb, ?_, ?_⟩
  · have h1 := hexVal_le ha
    have h2 := hexVal_le hb
    omega
  · rw [jsParseIntHex_pair ha hb]
    rfl

/-- Helper: the constant alpha 1 is the byte channel 255/255. -/
theorem channelByte_one : ChannelByte (num 1) :=
  ⟨255, le_refl 255, by norm_num⟩

/-- Helper: every channel parsed out of a spec-form hex literal is an
exact byte fraction. -/
theorem parse_hexLiteral_channels (s : String) (h : isHexLiteral s = true) :
    ChannelByte (enhancedParseColor (some (.str s)) none).r ∧
    ChannelByte (enhancedParseColor (some (.str s)) none).g ∧
    ChannelByte (enhancedParseColor (some (.str s)) none).b ∧
    ChannelByte (enhancedParseColor (some (.str s)) none).a := by
  obtain ⟨body, hsl, hall, hlen⟩ := isHexLiteral_parts h
  have hs : s ≠ "" := by
    intro hc
    subst hc
    simp [String.toList] at hsl
  have htrim : jsTrim s.toList = s.toList := by
    refine jsTrim_eq_self ?_
    intro c hc
    rw [hsl] at hc
    rcases List.mem_cons.mp hc with hch | hcb
    · subst hch
      decide
    · obtain ⟨v, hv⟩ := Option.isSome_iff_exists.mp (hall c hcb)
      exact hexVal_not_ws hv
  rw [enhancedParseColor_str_none s hs, htrim, hsl]
  have hdig : ∀ c ∈ body, ∃ v, hexVal c = some v := by
    intro c hc
    exact Option.isSome_iff_exists.mp (hall c hc)
  rcases hlen with h3 | h4 | h6 | h8
  · rcases body with _ | ⟨a, _ | ⟨b, _ | ⟨c, _ | ⟨d, t⟩⟩⟩⟩ <;> simp at h3
    obtain ⟨va, ha⟩ := hdig a (by simp)
    obtain ⟨vb, hb⟩ := hdig b (by simp)
    obtain ⟨vc, hc⟩ := hdig c (by simp)
    rw [parseColorCore_hash (hexBranch_len3 a b c)]
    exact ⟨channelByte_pair ha ha, channelByte_pair hb hb,
           channelByte_pair hc hc, channelByte_one⟩
  · rcases body with _ | ⟨a, _ | ⟨b, _ | ⟨c, _ | ⟨d, _ | ⟨e, t⟩⟩⟩⟩⟩ <;> simp at h4
    obtain ⟨va, ha⟩ := hdig a (by simp)
    obtain ⟨vb, hb⟩ := hdig b (by simp)
    obtain ⟨vc, hc⟩ := hdig c (by simp)
    obtain ⟨vd, hd⟩ := hdig d (by simp)
    rw [parseColorCore_hash (hexBranch_len4 a b c d)]
    exact ⟨channelByte_pair ha ha, channelByte_pair hb hb,
           channelByte_pair hc hc, channelByte_pair hd hd⟩
  · rcases body with _ | ⟨a, _ | ⟨b, _ | ⟨c, _ | ⟨d, _ | ⟨e, _ | ⟨f, _ | ⟨g, t⟩⟩⟩⟩⟩⟩⟩ <;>
      simp at h6
    obtain ⟨va, ha⟩ := hdig a (by simp)
    obtain ⟨vb, hb⟩ := hdig b (by simp)
    obtain ⟨vc, hc⟩ := hdig c (by simp)
    obtain ⟨vd, hd⟩ := hdig d (by simp)
    obtain ⟨ve, he⟩ := hdig e (by simp)
    obtain ⟨vf, hf⟩ := hdig f (by simp)
    rw [parseColorCore_hash (hexBranch_len6 a b c d e f)]
    exact ⟨channelByte_pair ha hb, channelByte_pair hc hd,
           channelByte_pair he hf, channelByte_one⟩
  · rcases body with
      _ | ⟨a, _ | ⟨b, _ | ⟨c, _ | ⟨d, _ | ⟨e, _ | ⟨f, _ | ⟨g, _ | ⟨k, _ | ⟨i, t⟩⟩⟩⟩⟩⟩⟩⟩⟩ <;>
      simp at h8
    obtain ⟨va, ha⟩ := hdig a (by simp)
    obtain ⟨vb, hb⟩ := hdig b (by simp)
    obtain ⟨vc, hc⟩ := hdig c (by simp)
    obtain ⟨vd, hd⟩ := hdig d (by simp)
    obtain ⟨ve, he⟩ := hdig e (by simp)
    obtain ⟨vf, hf⟩ := hdig f (by simp)
    obtain ⟨vg, hg⟩ := hdig g (by simp)
    obtain ⟨vk, hk⟩ := hdig k (by simp)
    rw [parseColorCore_hash (hexBranch_len8 a b c d e f g k)]
    exact ⟨channelByte_pair ha hb, channelByte_pair hc hd,
           channelByte_pair he hf, channelByte_pair hg hk⟩

/-- Helper: a byte channel survives rounding back to its byte. -/
theorem roundByte_frac (n : ℕ) : roundByte (num ((n : ℚ) / 255)) = n := by
  show (⌊(n : ℚ) / 255 * 255 + 1 / 2⌋).toNat = n
  have h1 : (n : ℚ) / 255 * 255 = (n : ℚ) := by
    field_simp
  rw [h1]
  rw [Int.floor_nat_add]
  norm_num

/-- Helper: the printed hex digit of a value below 16 reads back as that
value. -/
theorem hexVal_hexChar (k : ℕ) (hk : k < 16) : hexVal (hexChar k) = some k := by
  interval_cases k <;> decide

/-- Helper: printed hex digits are not whitespace. -/
theorem isJsWs_hexChar (k : ℕ) (hk : k < 16) : isJsWs (hexChar k) = false := by
  interval_cases k <;> decide

/-- Helper: `parseInt` reads the two printed hex digits of a byte back to
the byte. -/
theorem byteHex_parse (n : ℕ) (hn : n ≤ 255) :
    jsParseIntHex (byteHexChars n) = num ((n : ℚ)) := by
  have h1 : n / 16 < 16 := by omega
  have h2 : n % 16 < 16 := Nat.mod_lt _ (by norm_num)
  rw [show byteHexChars n = [hexChar (n / 16), hexChar (n % 16)] from rfl,
      jsParseIntHex_pair (hexVal_hexChar _ h1) (hexVal_hexChar _ h2)]
  congr 1
  have : 16 * (n / 16) + n % 16 = n := by omega
  exact_mod_cast congrArg (fun m : ℕ => (m : ℚ)) this

/-- Helper: formatting four byte channels to #RRGGBBAA and reparsing
recovers exactly the same colour. -/
theorem parse_formatted_bytes (n1 n2 n3 n4 : ℕ) (h1 : n1 ≤ 255)
    (h2 : n2 ≤ 255) (h3 : n3 ≤ 255) (h4 : n4 ≤ 255) :
    enhancedParseColor
        (some (.str (formatHexRRGGBBAA
          ⟨num ((n1 : ℚ) / 255), num ((n2 : ℚ) / 255),
           num ((n3 : ℚ) / 255), num ((n4 : ℚ) / 255)⟩))) none =
      ⟨num ((n1 : ℚ) / 255), num ((n2 : ℚ) / 255),
       num ((n3 : ℚ) / 255), num ((n4 : ℚ) / 255)⟩ := by
  have hfmt : formatHexRRGGBBAA
      ⟨num ((n1 : ℚ) / 255), num ((n2 : ℚ) / 255),
       num ((n3 : ℚ) / 255), num ((n4 : ℚ) / 255)⟩ =
      ⟨'#' :: (byteHexChars n1 ++ byteHexChars n2 ++ byteHexChars n3 ++
               byteHexChars n4)⟩ := by
    simp [formatHexRRGGBBAA, roundByte_frac]
  rw [hfmt]
  have hlist : '#' :: (byteHexChars n1 ++ byteHexChars n2 ++ byteHexChars n3 ++
      byteHexChars n4) =
      '#' :: [hexChar (n1 / 16), hexChar (n1 % 16), hexChar (n2 / 16),
              hexChar (n2 % 16), hexChar (n3 / 16), hexChar (n3 % 16),
              hexChar (n4 / 16), hexChar (n4 % 16)] := by
    simp [byteHexChars]
  have hs : (⟨'#' :: (byteHexChars n1 ++ byteHexChars n2 ++ byteHexChars n3 ++
      byteHexChars n4)⟩ : String) ≠ "" := by
    intro hc
    rw [show ("" : String) = ⟨[]⟩ from rfl] at hc
    have := congrArg String.data hc
    simp at this
  rw [enhancedParseColor_str_none _ hs]
  have htl : (⟨'#' :: (byteHexChars n1 ++ byteHexChars n2 ++ byteHexChars n3 ++
      byteHexChars n4)⟩ : String).toList =
      '#' :: (byteHexChars n1 ++ byteHexChars n2 ++ byteHexChars n3 ++
              byteHexChars n4) := rfl
  rw [htl, hlist]
  have htrim : jsTrim ('#' :: [hexChar (n1 / 16), hexChar (n1 % 16),
      hexChar (n2 / 16), hexChar (n2 % 16), hexChar (n3 / 16),
      hexChar (n3 % 16), hexChar (n4 / 16), hexChar (n4 % 16)]) =
      '#' :: [hexChar (n1 / 16), hexChar (n1 % 16), hexChar (n2 / 16),
              hexChar (n2 % 16), hexChar (n3 / 16), hexChar (n3 % 16),
              hexChar (n4 / 16), hexChar (n4 % 16)] := by
    refine jsTrim_eq_self ?_
    intro c hc
    simp only [List.mem_cons, List.not_mem_nil, or_false] at hc
    rcases hc with rfl | rfl | rfl | rfl | rfl | rfl | rfl | rfl | rfl
    · decide
    all_goals exact isJsWs_hexChar _ (by omega)
  rw [htrim, parseColorCore_hash (hexBranch_len8 _ _ _ _ _ _ _ _)]
  have e1 := byteHex_parse n1 h1
  have e2 := byteHex_parse n2 h2
  have e3 := byteHex_parse n3 h3
  have e4 := byteHex_parse n4 h4
  rw [show byteHexChars n1 = [hexChar (n1 / 16), hexChar (n1 % 16)] from rfl]
    at e1
  rw [show byteHexChars n2 = [hexChar (n2 / 16), hexChar (n2 % 16)] from rfl]
    at e2
  rw [show byteHexChars n3 = [hexChar (n3 / 16), hexChar (n3 % 16)] from rfl]
    at e3
  rw [show byteHexChars n4 = [hexChar (n4 / 16), hexChar (n4 % 16)] from rfl]
    at e4
  rw [e1, e2, e3, e4]
  rfl

/-- Claim C2, corrected.  Two facts about the fallback, both total (the
parser never throws).  First, any string whose trimmed form begins with
none of the recognised markers (brand reference, hash, rgb, hsl) and is
not a named colour is answered with opaque black, under any brand map.
Second, a hash-led trimmed string whose body has one of the supported
lengths (3, 4, 6 or 8) is always answered by the hex branch's `parseInt`
arithmetic (code.ts:458-495) and never reaches the black fallback; on a
non-hex body that answer can be a NaN-channel record rather than black,
which is the counterexample. -/
theorem C2_black_fallback :
    (∀ (s : String) (brand : Option BrandMap),
      startsWithL (jsTrim s.toList) "brand:".toList = false →
      startsWithL (jsTrim s.toList) ['#'] = false →
      startsWithL (jsTrim s.toList) "rgb".toList = false →
      startsWithL (jsTrim s.toList) "hsl".toList = false →
      namedLookup (listToLower (jsTrim s.toList)) = none →
      enhancedParseColor (some (.str s)) brand = black) ∧
    (∀ (s : String) (body : List Char),
      jsTrim s.toList = '#' :: body →
      (body.length = 3 ∨ body.length = 4 ∨ body.length = 6 ∨
       body.length = 8) →
      ∃ c, hexBranch ('#' :: body) = some c ∧
        enhancedParseColor (some (.str s)) none = c) := by
  constructor
  · intro s brand h0 h1 h2 h3 h4
    by_cases hs : s = ""
    · subst hs
      cases brand <;> simp [enhancedParseColor, ColorInput.falsy]
    · have h0' : startsWithL (jsTrim s.data) ['b', 'r', 'a', 'n', 'd', ':'] =
          false := by simpa using h0
      have h1' : startsWithL (jsTrim s.data) ['#'] = false := by simpa using h1
      have h2' : startsWithL (jsTrim s.data) ['r', 'g', 'b'] = false := by
        simpa using h2
      have h3' : startsWithL (jsTrim s.data) ['h', 's', 'l'] = false := by
        simpa using h3
      have h4' : namedLookup (listToLower (jsTrim s.data)) = none := by
        simpa using h4
      cases brand with
      | none =>
        simp [enhancedParseColor, ColorInput.falsy, hs, parseColorCore,
          h1', h2', h3', h4']
      | some m =>
        simp [enhancedParseColor, ColorInput.falsy, hs, parseColorCore,
          h0', h1', h2', h3', h4']
  · intro s body htr hlen
    have hs : s ≠ "" := by
      intro hc
      subst hc
      simp [jsTrim, String.toList] at htr
    have hsome : ∃ c, hexBranch ('#' :: body) = some c := by
      rcases hlen with h3 | h4 | h6 | h8
      · rcases body with _ | ⟨a, _ | ⟨b, _ | ⟨c, _ | ⟨d, t⟩⟩⟩⟩ <;> simp at h3
        exact ⟨_, hexBranch_len3 a b c⟩
      · rcases body with _ | ⟨a, _ | ⟨b, _ | ⟨c, _ | ⟨d, _ | ⟨e, t⟩⟩⟩⟩⟩ <;>
          simp at h4
        exact ⟨_, hexBranch_len4 a b c d⟩
      · rcases body with
          _ | ⟨a, _ | ⟨b, _ | ⟨c, _ | ⟨d, _ | ⟨e, _ | ⟨f, _ | ⟨g, t⟩⟩⟩⟩⟩⟩⟩ <;>
          simp at h6
        exact ⟨_, hexBranch_len6 a b c d e f⟩
      · rcases body with
          _ | ⟨a, _ | ⟨b, _ | ⟨c, _ | ⟨d, _ | ⟨e, _ | ⟨f, _ | ⟨g, _ | ⟨k,
            _ | ⟨i, t⟩⟩⟩⟩⟩⟩⟩⟩⟩ <;> simp at h8
        exact ⟨_, hexBranch_len8 a b c d e f g k⟩
    obtain ⟨c, hc⟩ := hsome
    refine ⟨c, hc, ?_⟩
    rw [enhancedParseColor_str_none s hs, htr]
    exact parseColorCore_hash hc

/-- Claim C2 witness: the spec's own example string is answered with
opaque black, and the supported-length non-hex string #zzz is answered by
the hex branch, not the fallback. -/
theorem C2_witness :
    enhancedParseColor (some (.str "not-a-color")) none = black ∧
    ∃ c, hexBranch ('#' :: ['z', 'z', 'z']) = some c ∧
      enhancedParseColor (some (.str "#zzz")) none = c :=
  ⟨C2_black_fallback.1 "not-a-color" none (by decide) (by decide) (by decide)
     (by decide) (by decide),
   C2_black_fallback.2 "#zzz" ['z', 'z', 'z'] (by decide) (by decide)⟩

/-- Claim C2 counterexample: the string #zzz matches none of the
recognised formats (it is not a hex literal, an rgb or hsl form, or a
named colour), yet the parser returns a record with NaN channels, not
opaque black. -/
theorem C2_counterexample :
    isHexLiteral "#zzz" = false ∧
    startsWithL (jsTrim "#zzz".toList) "rgb".toList = false ∧
    startsWithL (jsTrim "#zzz".toList) "hsl".toList = false ∧
    namedLookup (listToLower (jsTrim "#zzz".toList)) = none ∧
    enhancedParseColor (some (.str "#zzz")) none = ⟨nan, nan, nan, num 1⟩ ∧
    (⟨nan, nan, nan, num 1⟩ : Color) ≠ black := by
  refine ⟨by decide, by decide, by decide, by decide, ?_, by simp [black]⟩
  simp +decide [enhancedParseColor, ColorInput.falsy, jsTrim, parseColorCore,
    startsWithL, hexBranch, rgbBranch, hslBranch, namedLookup, listToLower,
    jsToLower, dupChars, runsOf, runsOfAux, isDigitDot, decVal, hexVal,
    isJsWs, jsParseIntDec, jsParseIntHex, jsParseIntWith, leadDigits,
    digitsToNat, JSNum.divC, String.toList]

/-- Helper: byte channels lie inside the unit interval. -/
theorem inUnitB_of_channelByte {x : JSNum} (h : ChannelByte x) :
    inUnitB x = true := by
  obtain ⟨n, hn, rfl⟩ := h
  simp only [inUnitB, decide_eq_true_eq]
  constructor
  · positivity
  · rw [div_le_one (by norm_num)]
    exact_mod_cast hn

/-- Claim C6, corrected.  Every channel parsed from a well-formed hex
literal (and the black fallback) is a float in the closed interval [0,1];
but structured objects and rgb/hsl textual components are passed through
without clamping, so an out-of-range component yields an out-of-range
channel (the counterexample). -/
theorem C6_hex_channels_in_unit (s : String) (h : isHexLiteral s = true) :
    inUnitB (enhancedParseColor (some (.str s)) none).r = true ∧
    inUnitB (enhancedParseColor (some (.str s)) none).g = true ∧
    inUnitB (enhancedParseColor (some (.str s)) none).b = true ∧
    inUnitB (enhancedParseColor (some (.str s)) none).a = true := by
  obtain ⟨hr, hg, hb, ha⟩ := parse_hexLiteral_channels s h
  exact ⟨inUnitB_of_channelByte hr, inUnitB_of_channelByte hg,
         inUnitB_of_channelByte hb, inUnitB_of_channelByte ha⟩

/-- Claim C6 witness: the channels of #abc are all inside [0,1]. -/
theorem C6_witness :
    isHexLiteral "#abc" = true ∧
    (inUnitB (enhancedParseColor (some (.str "#abc")) none).r = true ∧
     inUnitB (enhancedParseColor (some (.str "#abc")) none).g = true ∧
     inUnitB (enhancedParseColor (some (.str "#abc")) none).b = true ∧
     inUnitB (enhancedParseColor (some (.str "#abc")) none).a = true) :=
  ⟨by decide, C6_hex_channels_in_unit "#abc" (by decide)⟩

/-- Claim C6 counterexample: the structured input with r = 2 is passed
through unclamped, so the returned red channel 2 lies outside [0,1]. -/
theorem C6_counterexample :
    enhancedParseColor (some (.obj (num 2) (num 0) (num 0) none)) none =
      ⟨num 2, num 0, num 0, num 1⟩ ∧
    inUnitB (num 2) = false := by
  constructor
  · simp [enhancedParseColor, ColorInput.falsy]
  · simp only [inUnitB, decide_eq_false_iff_not]
    norm_num

/-- Claim C4, confirmed.  For every supported hex literal with no brand
map, formatting the parsed colour back to #RRGGBBAA with byte-rounded
channels and reparsing yields exactly the same colour, so in particular
every channel is within 1/255 of the first parse's channel. -/
theorem C4_hex_roundtrip (s : String) (h : isHexLiteral s = true) :
    enhancedParseColor
        (some (.str (formatHexRRGGBBAA
          (enhancedParseColor (some (.str s)) none)))) none =
      enhancedParseColor (some (.str s)) none ∧
    chanClose (enhancedParseColor (some (.str s)) none).r
      (enhancedParseColor (some (.str (formatHexRRGGBBAA
        (enhancedParseColor (some (.str s)) none)))) none).r ∧
    chanClose (enhancedParseColor (some (.str s)) none).g
      (enhancedParseColor (some (.str (formatHexRRGGBBAA
        (enhancedParseColor (some (.str s)) none)))) none).g ∧
    chanClose (enhancedParseColor (some (.str s)) none).b
      (enhancedParseColor (some (.str (formatHexRRGGBBAA
        (enhancedParseColor (some (.str s)) none)))) none).b ∧
    chanClose (enhancedParseColor (some (.str s)) none).a
      (enhancedParseColor (some (.str (formatHexRRGGBBAA
        (enhancedParseColor (some (.str s)) none)))) none).a := by
  obtain ⟨⟨n1, hb1, e1⟩, ⟨n2, hb2, e2⟩, ⟨n3, hb3, e3⟩, ⟨n4, hb4, e4⟩⟩ :=
    parse_hexLiteral_channels s h
  have hc1 : enhancedParseColor (some (.str s)) none =
      ⟨num ((n1 : ℚ) / 255), num ((n2 : ℚ) / 255),
       num ((n3 : ℚ) / 255), num ((n4 : ℚ) / 255)⟩ := by
    have hx : enhancedParseColor (some (.str s)) none =
        ⟨(enhancedParseColor (some (.str s)) none).r,
         (enhancedParseColor (some (.str s)) none).g,
         (enhancedParseColor (some (.str s)) none).b,
         (enhancedParseColor (some (.str s)) none).a⟩ := rfl
    rw [hx, e1, e2, e3, e4]
  rw [hc1, parse_formatted_bytes n1 n2 n3 n4 hb1 hb2 hb3 hb4]
  refine ⟨rfl, ?_, ?_, ?_, ?_⟩ <;>
    exact ⟨_, _, rfl, rfl, by norm_num⟩

/-- Claim C4 witness: the short form #abc round-trips exactly. -/
theorem C4_witness :
    isHexLiteral "#abc" = true ∧
    enhancedParseColor
        (some (.str (formatHexRRGGBBAA
          (enhancedParseColor (some (.str "#abc")) none)))) none =
      enhancedParseColor (some (.str "#abc")) none :=
  ⟨by decide, (C4_hex_roundtrip "#abc" (by decide)).1⟩

end FigmaPlugin
